import Mathlib

/-!
Shallow embedding of the RechiGPT chat client (the `ChatPage` component):
the timeline data model (`Message`), the history loader (`loadChatHistory`),
the live-send operation (`sendMessage`) and the input-area control flags.
All definitions are translated from the TypeScript source; the network and
the clock are passed in explicitly as environment values.
-/

/-- A JavaScript `Date` value as observable in this client: either constructed
from a server string (`new Date(s)`) or from the local clock (`new Date()` at
epoch-milliseconds `t`). -/
inductive Date where
  | parsed (s : String)
  | localClock (t : Nat)
deriving DecidableEq, Repr

/-- The `Message` interface of the chat page: one entry of the timeline. -/
structure Message where
  id : String
  content : String
  isUser : Bool
  timestamp : Date
deriving DecidableEq, Repr

/-- The component state of `ChatPage` relevant to the claims, together with
the browser-visible effects: `messages`, `inputMessage` and `loading` are the
React state hooks; `token` is the `localStorage` slot "token"; `navs` records
the arguments of `router.push` calls in order; `errorLog` records the
`console.error` messages in order. -/
structure ChatState where
  messages : List Message
  inputMessage : String
  loading : Bool
  token : Option String
  navs : List String
  errorLog : List String
deriving DecidableEq, Repr

/-- One server-side turn as returned by `GET /chat/history`:
`{id, message, response, timestamp}`. -/
structure Turn where
  id : Nat
  message : String
  response : String
  timestamp : String
deriving DecidableEq, Repr

/-- The parsed JSON body of a successful `POST /chat` response:
`{response, timestamp}`. -/
structure ChatResponse where
  response : String
  timestamp : String
deriving DecidableEq, Repr

/-- Outcome of the `fetch` in `sendMessage`: a 2xx response with parsed body
(`response.ok`), a non-2xx response carrying its status code, or the fetch
(or body parsing) throwing. -/
inductive FetchOutcome where
  | success (data : ChatResponse)
  | failure (status : Nat)
  | networkError
deriving DecidableEq, Repr

/-- Outcome of the `fetch` in `loadChatHistory`: a 2xx response with the
parsed turn list, a non-2xx response, or the fetch (or parsing) throwing. -/
inductive HistoryOutcome where
  | success (turns : List Turn)
  | failure (status : Nat)
  | networkError
deriving DecidableEq, Repr

/-- The `history.forEach` loop body of `loadChatHistory`: each turn pushes a
user entry (`user-{id}`, content `message`) then a bot entry (`bot-{id}`,
content `response`), both stamped `new Date(item.timestamp)`. -/
def formatHistory : List Turn → List Message
  | [] => []
  | item :: rest =>
      { id := "user-" ++ toString item.id, content := item.message,
        isUser := true, timestamp := Date.parsed item.timestamp } ::
      { id := "bot-" ++ toString item.id, content := item.response,
        isUser := false, timestamp := Date.parsed item.timestamp } ::
      formatHistory rest

/-- The function `loadChatHistory`: on `response.ok` replace the timeline wholesale with
the formatted entries; on a non-2xx response do nothing (the `if` has no else
branch); on a thrown error log "Failed to load chat history:". -/
def loadChatHistory (st : ChatState) (outcome : HistoryOutcome) : ChatState :=
  match outcome with
  | .success turns => { st with messages := formatHistory turns }
  | .failure _ => st
  | .networkError =>
      { st with errorLog := st.errorLog ++ ["Failed to load chat history:"] }

/-- The environment of one `sendMessage` call: the local clock at submit time
(`Date.now()` when the optimistic entry is built), the local clock when the
response settles (`Date.now()` in the resolution/catch code), and the network
outcome. -/
structure SendEnv where
  submitNow : Nat
  resolveNow : Nat
  outcome : FetchOutcome
deriving DecidableEq, Repr

/-- The body of the `POST /chat` request: `JSON.stringify({ message })`. -/
structure SendRequest where
  message : String
deriving DecidableEq, Repr

/-- The optimistic user message built at the top of `sendMessage`. -/
def mkUserMessage (content : String) (now : Nat) : Message :=
  { id := "user-" ++ toString now, content := content, isUser := true,
    timestamp := Date.localClock now }

/-- The fixed apology string of the synthesized error entry. -/
def errorContent : String := "Sorry, I encountered an error. Please try again."

/-- The synthesized error message built in the `catch` block of
`sendMessage`. -/
def mkErrorMessage (now : Nat) : Message :=
  { id := "error-" ++ toString now, content := errorContent, isUser := false,
    timestamp := Date.localClock now }

/-- The state after the synchronous part of an accepted `sendMessage`:
append the optimistic user message, clear the input, set `loading`. This is
the state from which the `fetch` is issued. -/
def optimisticState (st : ChatState) (now : Nat) : ChatState :=
  { st with messages := st.messages ++ [mkUserMessage st.inputMessage now],
            inputMessage := "", loading := true }

/-- The `try`/`catch` part of `sendMessage` after the `fetch` settles:
on `response.ok` append the bot message (server text, server timestamp);
on status 401 remove the token and push "/login"; on any other non-2xx
status `throw new Error(...)` lands in the `catch`, which — like a thrown
fetch — logs and appends the synthesized error message. -/
def resolveSend (st : ChatState) (env : SendEnv) : ChatState :=
  match env.outcome with
  | .success data =>
      { st with messages := st.messages ++
          [{ id := "bot-" ++ toString env.resolveNow, content := data.response,
             isUser := false, timestamp := Date.parsed data.timestamp }] }
  | .failure status =>
      if status = 401 then
        { st with token := none, navs := st.navs ++ ["/login"] }
      else
        { st with messages := st.messages ++ [mkErrorMessage env.resolveNow],
                  errorLog := st.errorLog ++ ["Error sending message:"] }
  | .networkError =>
      { st with messages := st.messages ++ [mkErrorMessage env.resolveNow],
                errorLog := st.errorLog ++ ["Error sending message:"] }

/-- The falsiness test `!s.trim()` of JavaScript: `trim()` strips leading and
trailing whitespace, and the result is the empty string (falsy) exactly when
every character of `s` is whitespace. Translated as that character test so it
evaluates. -/
def isBlank (s : String) : Bool := s.data.all (fun c => c.isWhitespace)

/-- The function `sendMessage`: guard `if (!inputMessage.trim() || loading) return`; then
optimistic insertion, the request whose body captures the pre-clear draft
(`inputMessage` is a closure constant, unchanged by `setInputMessage("")`),
resolution of the outcome, and the `finally { setLoading(false) }`.
Returns the new state and the issued request (`none` when guarded out). -/
def sendMessage (st : ChatState) (env : SendEnv) : ChatState × Option SendRequest :=
  if isBlank st.inputMessage ∨ st.loading = true then (st, none)
  else
    let st2 := resolveSend (optimisticState st env.submitNow) env
    ({ st2 with loading := false }, some { message := st.inputMessage })

/-- The `disabled` prop of the draft `Input` element: `disabled={loading}`. -/
def inputDisabled (loading : Bool) : Bool := loading

/-- The `disabled` prop of the send `Button`:
`disabled={loading || !inputMessage.trim()}`. -/
def sendButtonDisabled (loading : Bool) (inputMessage : String) : Bool :=
  loading || isBlank inputMessage

/-- A concrete state used by the witness theorems: empty timeline, draft
"hello", not loading, a stored token. -/
def sampleState : ChatState :=
  { messages := [], inputMessage := "hello", loading := false,
    token := some "tok", navs := [], errorLog := [] }

/-- A send environment with a 2xx outcome, used by witnesses. -/
def envResolved : SendEnv :=
  { submitNow := 5, resolveNow := 9,
    outcome := .success { response := "hi there", timestamp := "2024-01-01T00:00:00Z" } }

/-- A send environment whose response has status 401, used by witnesses. -/
def envUnauthorized : SendEnv :=
  { submitNow := 5, resolveNow := 9, outcome := .failure 401 }

/-- A send environment whose fetch throws, used by witnesses. -/
def envThrown : SendEnv :=
  { submitNow := 5, resolveNow := 9, outcome := .networkError }

/-- The state `sampleState` with a send already in flight. -/
def loadingState : ChatState := { sampleState with loading := true }

theorem send_guard_eq (st : ChatState) (env : SendEnv)
    (h : isBlank st.inputMessage = true ∨ st.loading = true) :
    sendMessage st env = (st, none) := by
  unfold sendMessage
  rcases h with h | h <;> simp [h]

theorem send_accept_eq (st : ChatState) (env : SendEnv)
    (hne : isBlank st.inputMessage = false) (hld : st.loading = false) :
    sendMessage st env =
      ({ resolveSend (optimisticState st env.submitNow) env with loading := false },
        some { message := st.inputMessage }) := by
  unfold sendMessage
  rw [if_neg (by simp [hne, hld])]

theorem send_success_eq (st : ChatState) (env : SendEnv) (data : ChatResponse)
    (hne : isBlank st.inputMessage = false) (hld : st.loading = false)
    (hout : env.outcome = .success data) :
    sendMessage st env =
      ({ st with
           messages := st.messages ++
             [mkUserMessage st.inputMessage env.submitNow,
              { id := "bot-" ++ toString env.resolveNow,
                content := data.response, isUser := false,
                timestamp := Date.parsed data.timestamp }],
           inputMessage := "", loading := false },
        some { message := st.inputMessage }) := by
  rw [send_accept_eq st env hne hld]
  unfold resolveSend optimisticState
  rw [hout]
  simp

theorem send_unauthorized_eq (st : ChatState) (env : SendEnv)
    (hne : isBlank st.inputMessage = false) (hld : st.loading = false)
    (hout : env.outcome = .failure 401) :
    sendMessage st env =
      ({ st with
           messages := st.messages ++ [mkUserMessage st.inputMessage env.submitNow],
           inputMessage := "", loading := false,
           token := none, navs := st.navs ++ ["/login"] },
        some { message := st.inputMessage }) := by
  rw [send_accept_eq st env hne hld]
  unfold resolveSend optimisticState
  rw [hout]
  simp

theorem send_error_eq (st : ChatState) (env : SendEnv)
    (hne : isBlank st.inputMessage = false) (hld : st.loading = false)
    (hout : env.outcome = .networkError ∨
      ∃ c, env.outcome = .failure c ∧ c ≠ 401) :
    sendMessage st env =
      ({ st with
           messages := st.messages ++
             [mkUserMessage st.inputMessage env.submitNow,
              mkErrorMessage env.resolveNow],
           inputMessage := "", loading := false,
           errorLog := st.errorLog ++ ["Error sending message:"] },
        some { message := st.inputMessage }) := by
  rw [send_accept_eq st env hne hld]
  unfold resolveSend optimisticState
  rcases hout with hout | ⟨c, hout, hc⟩
  · rw [hout]
    simp
  · rw [hout]
    simp [hc]

theorem take_append_cons {α : Type} (l : List α) (a : α) (r : List α) :
    (l ++ a :: r).take (l.length + 1) = l ++ [a] := by
  induction l with
  | nil => simp
  | cons x xs ih => simpa using ih

theorem getElem_append_length {α : Type} (l : List α) (a : α) (r : List α) :
    (l ++ a :: r)[l.length]? = some a := by
  induction l with
  | nil => simp
  | cons x xs ih => simpa using ih

theorem formatHistory_length (turns : List Turn) :
    (formatHistory turns).length = 2 * turns.length := by
  induction turns with
  | nil => rfl
  | cons t rest ih =>
    simp only [formatHistory, List.length_cons, ih]
    ring

theorem formatHistory_get (turns : List Turn) (i : Nat) (t : Turn)
    (h : turns[i]? = some t) :
    (formatHistory turns)[2 * i]? =
        some { id := "user-" ++ toString t.id, content := t.message,
               isUser := true, timestamp := Date.parsed t.timestamp }
    ∧ (formatHistory turns)[2 * i + 1]? =
        some { id := "bot-" ++ toString t.id, content := t.response,
               isUser := false, timestamp := Date.parsed t.timestamp } := by
  induction turns generalizing i with
  | nil => simp at h
  | cons hd rest ih =>
    cases i with
    | zero =>
      simp only [List.getElem?_cons_zero, Option.some.injEq] at h
      subst h
      simp [formatHistory]
    | succ j =>
      have h' : rest[j]? = some t := by simpa using h
      obtain ⟨ih1, ih2⟩ := ih j h'
      constructor
      · have he : 2 * (j + 1) = 2 * j + 1 + 1 := by ring
        rw [he]
        simpa [formatHistory] using ih1
      · have he : 2 * (j + 1) + 1 = 2 * j + 1 + 1 + 1 := by ring
        rw [he]
        simpa [formatHistory] using ih2

theorem drop_append_self {α : Type} (l r : List α) :
    (l ++ r).drop l.length = r := by
  induction l with
  | nil => rfl
  | cons x xs ih => simp [ih]

/-- C1: for every draft that is non-blank after trimming and with no send in
flight, `sendMessage` synchronously appends exactly one user entry — content
the draft text, timestamp the local clock at submit, user role — to the
timeline before the POST request is issued, and on every network outcome the
resulting timeline still extends the old entries followed by that user entry
(the optimistic entry is never removed), with exactly one user-role entry
among the appended ones. -/
theorem sendMessage_optimistic_entry (st : ChatState) (env : SendEnv)
    (hne : isBlank st.inputMessage = false) (hld : st.loading = false) :
    (optimisticState st env.submitNow).messages
        = st.messages ++ [mkUserMessage st.inputMessage env.submitNow]
    ∧ (mkUserMessage st.inputMessage env.submitNow).content = st.inputMessage
    ∧ (mkUserMessage st.inputMessage env.submitNow).timestamp
        = Date.localClock env.submitNow
    ∧ (mkUserMessage st.inputMessage env.submitNow).isUser = true
    ∧ (sendMessage st env).2 = some { message := st.inputMessage }
    ∧ (sendMessage st env).1.messages.take (st.messages.length + 1)
        = st.messages ++ [mkUserMessage st.inputMessage env.submitNow]
    ∧ (((sendMessage st env).1.messages.drop st.messages.length).filter
        (fun m => m.isUser)).length = 1 := by
  have hreq : (sendMessage st env).2 = some { message := st.inputMessage } := by
    rw [send_accept_eq st env hne hld]
  refine ⟨rfl, rfl, rfl, rfl, hreq, ?_⟩
  rcases houtc : env.outcome with data | c | _
  · rw [send_success_eq st env data hne hld houtc]
    refine ⟨take_append_cons _ _ _, ?_⟩
    simp only [drop_append_self]
    rfl
  · by_cases hc : c = 401
    · subst hc
      rw [send_unauthorized_eq st env hne hld houtc]
      refine ⟨take_append_cons _ _ _, ?_⟩
      simp only [drop_append_self]
      rfl
    · rw [send_error_eq st env hne hld (Or.inr ⟨c, houtc, hc⟩)]
      refine ⟨take_append_cons _ _ _, ?_⟩
      simp only [drop_append_self]
      rfl
  · rw [send_error_eq st env hne hld (Or.inl houtc)]
    refine ⟨take_append_cons _ _ _, ?_⟩
    simp only [drop_append_self]
    rfl

/-- Witness for C1: the concrete state with draft "hello" and a 2xx
outcome. -/
theorem sendMessage_optimistic_entry_witness :
    (optimisticState sampleState envResolved.submitNow).messages
        = sampleState.messages
            ++ [mkUserMessage sampleState.inputMessage envResolved.submitNow]
    ∧ (mkUserMessage sampleState.inputMessage envResolved.submitNow).content
        = sampleState.inputMessage
    ∧ (mkUserMessage sampleState.inputMessage envResolved.submitNow).timestamp
        = Date.localClock envResolved.submitNow
    ∧ (mkUserMessage sampleState.inputMessage envResolved.submitNow).isUser = true
    ∧ (sendMessage sampleState envResolved).2
        = some { message := sampleState.inputMessage }
    ∧ (sendMessage sampleState envResolved).1.messages.take
          (sampleState.messages.length + 1)
        = sampleState.messages
            ++ [mkUserMessage sampleState.inputMessage envResolved.submitNow]
    ∧ (((sendMessage sampleState envResolved).1.messages.drop
          sampleState.messages.length).filter (fun m => m.isUser)).length = 1 :=
  sendMessage_optimistic_entry sampleState envResolved (by decide) (by decide)

/-- C6: when the draft is empty or whitespace-only, or a send is already in
flight, `sendMessage` is a complete no-op: the state (timeline, draft,
loading flag, token, navigations, log) is unchanged and no request is
issued. -/
theorem sendMessage_noop_blocked (st : ChatState) (env : SendEnv)
    (h : isBlank st.inputMessage = true ∨ st.loading = true) :
    sendMessage st env = (st, none) :=
  send_guard_eq st env h

/-- Witness for C6: a send already in flight. -/
theorem sendMessage_noop_blocked_witness :
    sendMessage loadingState envResolved = (loadingState, none) :=
  sendMessage_noop_blocked loadingState envResolved (Or.inr (by decide))

/-- C2: a successful history load replaces the timeline wholesale with
exactly `2 × N` entries for `N` returned turns: for each turn, in server
order, a user entry (`user-{id}`, content the stored message) followed by a
bot entry (`bot-{id}`, content the stored response), both stamped with the
turn's timestamp. -/
theorem loadChatHistory_success_shape (st : ChatState) (turns : List Turn) :
    (loadChatHistory st (.success turns)).messages = formatHistory turns
    ∧ (loadChatHistory st (.success turns)).messages.length = 2 * turns.length
    ∧ ∀ i t, turns[i]? = some t →
        (loadChatHistory st (.success turns)).messages[2 * i]? =
            some { id := "user-" ++ toString t.id, content := t.message,
                   isUser := true, timestamp := Date.parsed t.timestamp }
        ∧ (loadChatHistory st (.success turns)).messages[2 * i + 1]? =
            some { id := "bot-" ++ toString t.id, content := t.response,
                   isUser := false, timestamp := Date.parsed t.timestamp } :=
  ⟨rfl, formatHistory_length turns, fun i t h => formatHistory_get turns i t h⟩

/-- Witness for C2: a one-turn history. -/
theorem loadChatHistory_success_shape_witness :
    (loadChatHistory sampleState (.success [⟨1, "a", "b", "T"⟩])).messages[2 * 0]? =
        some { id := "user-" ++ toString (1 : Nat), content := "a",
               isUser := true, timestamp := Date.parsed "T" }
    ∧ (loadChatHistory sampleState (.success [⟨1, "a", "b", "T"⟩])).messages[2 * 0 + 1]? =
        some { id := "bot-" ++ toString (1 : Nat), content := "b",
               isUser := false, timestamp := Date.parsed "T" } :=
  (loadChatHistory_success_shape sampleState [⟨1, "a", "b", "T"⟩]).2.2 0
    ⟨1, "a", "b", "T"⟩ rfl

/-- C3: when the send response has status 401, the token is removed from
storage, "/login" is pushed, and the timeline for that exchange holds only
the optimistic user entry — no bot entry of any kind is appended. -/
theorem sendMessage_unauthorized (st : ChatState) (env : SendEnv)
    (hne : isBlank st.inputMessage = false) (hld : st.loading = false)
    (hout : env.outcome = .failure 401) :
    sendMessage st env =
      ({ st with
           messages := st.messages ++ [mkUserMessage st.inputMessage env.submitNow],
           inputMessage := "", loading := false,
           token := none, navs := st.navs ++ ["/login"] },
        some { message := st.inputMessage }) :=
  send_unauthorized_eq st env hne hld hout

/-- Witness for C3: draft "hello", response status 401. -/
theorem sendMessage_unauthorized_witness :
    sendMessage sampleState envUnauthorized =
      ({ sampleState with
           messages := sampleState.messages
             ++ [mkUserMessage sampleState.inputMessage envUnauthorized.submitNow],
           inputMessage := "", loading := false,
           token := none, navs := sampleState.navs ++ ["/login"] },
        some { message := sampleState.inputMessage }) :=
  sendMessage_unauthorized sampleState envUnauthorized (by decide) (by decide) rfl

/-- C4: when the send fetch throws, or the response status is non-2xx and
not 401, exactly one synthesized-error bot entry is appended after the
optimistic user entry: content the fixed apology string, local-clock
timestamp, bot role; the token is untouched on this path. -/
theorem sendMessage_failed (st : ChatState) (env : SendEnv)
    (hne : isBlank st.inputMessage = false) (hld : st.loading = false)
    (hout : env.outcome = .networkError ∨
      ∃ c, env.outcome = .failure c ∧ c ≠ 401) :
    sendMessage st env =
      ({ st with
           messages := st.messages ++
             [mkUserMessage st.inputMessage env.submitNow,
              mkErrorMessage env.resolveNow],
           inputMessage := "", loading := false,
           errorLog := st.errorLog ++ ["Error sending message:"] },
        some { message := st.inputMessage })
    ∧ (mkErrorMessage env.resolveNow).content
        = "Sorry, I encountered an error. Please try again."
    ∧ (mkErrorMessage env.resolveNow).isUser = false
    ∧ (mkErrorMessage env.resolveNow).timestamp = Date.localClock env.resolveNow
    ∧ (sendMessage st env).1.token = st.token :=
  ⟨send_error_eq st env hne hld hout, rfl, rfl, rfl, by
    rw [send_error_eq st env hne hld hout]⟩

/-- Witness for C4: draft "hello", fetch throws. -/
theorem sendMessage_failed_witness :
    (sendMessage sampleState envThrown =
      ({ sampleState with
           messages := sampleState.messages ++
             [mkUserMessage sampleState.inputMessage envThrown.submitNow,
              mkErrorMessage envThrown.resolveNow],
           inputMessage := "", loading := false,
           errorLog := sampleState.errorLog ++ ["Error sending message:"] },
        some { message := sampleState.inputMessage }))
    ∧ (mkErrorMessage envThrown.resolveNow).content
        = "Sorry, I encountered an error. Please try again."
    ∧ (mkErrorMessage envThrown.resolveNow).isUser = false
    ∧ (mkErrorMessage envThrown.resolveNow).timestamp
        = Date.localClock envThrown.resolveNow
    ∧ (sendMessage sampleState envThrown).1.token = sampleState.token :=
  sendMessage_failed sampleState envThrown (by decide) (by decide) (Or.inl rfl)

/-- C5: when the send fetch succeeds with 2xx, exactly one bot entry is
appended after the optimistic user entry, carrying the server-returned
response text and the server-returned timestamp (a parsed server string, not
the local clock). -/
theorem sendMessage_resolved (st : ChatState) (env : SendEnv) (data : ChatResponse)
    (hne : isBlank st.inputMessage = false) (hld : st.loading = false)
    (hout : env.outcome = .success data) :
    sendMessage st env =
      ({ st with
           messages := st.messages ++
             [mkUserMessage st.inputMessage env.submitNow,
              { id := "bot-" ++ toString env.resolveNow,
                content := data.response, isUser := false,
                timestamp := Date.parsed data.timestamp }],
           inputMessage := "", loading := false },
        some { message := st.inputMessage }) :=
  send_success_eq st env data hne hld hout

/-- Witness for C5: draft "hello", 2xx response "hi there". -/
theorem sendMessage_resolved_witness :
    sendMessage sampleState envResolved =
      ({ sampleState with
           messages := sampleState.messages ++
             [mkUserMessage sampleState.inputMessage envResolved.submitNow,
              { id := "bot-" ++ toString envResolved.resolveNow,
                content := "hi there", isUser := false,
                timestamp := Date.parsed "2024-01-01T00:00:00Z" }],
           inputMessage := "", loading := false },
        some { message := sampleState.inputMessage }) :=
  sendMessage_resolved sampleState envResolved
    { response := "hi there", timestamp := "2024-01-01T00:00:00Z" }
    (by decide) (by decide) rfl

/-- C7: every accepted submit clears the draft and raises the loading flag
before the fetch settles (those are properties of the state the fetch is
issued from), and the always-run finalization resets the loading flag, so on
every outcome — success, thrown error, non-2xx failure, 401 — the final
loading flag is false. -/
theorem sendMessage_sending_lifecycle (st : ChatState) (env : SendEnv)
    (hne : isBlank st.inputMessage = false) (hld : st.loading = false) :
    (optimisticState st env.submitNow).inputMessage = ""
    ∧ (optimisticState st env.submitNow).loading = true
    ∧ sendMessage st env =
        ({ resolveSend (optimisticState st env.submitNow) env with loading := false },
          some { message := st.inputMessage })
    ∧ (sendMessage st env).1.loading = false :=
  ⟨rfl, rfl, send_accept_eq st env hne hld, by rw [send_accept_eq st env hne hld]⟩

/-- Witness for C7: draft "hello", 2xx outcome. -/
theorem sendMessage_sending_lifecycle_witness :
    (optimisticState sampleState envResolved.submitNow).inputMessage = ""
    ∧ (optimisticState sampleState envResolved.submitNow).loading = true
    ∧ sendMessage sampleState envResolved =
        ({ resolveSend (optimisticState sampleState envResolved.submitNow) envResolved with
            loading := false },
          some { message := sampleState.inputMessage })
    ∧ (sendMessage sampleState envResolved).1.loading = false :=
  sendMessage_sending_lifecycle sampleState envResolved (by decide) (by decide)

/-- C8 as amended: on a history-load failure the timeline, token and
navigations are untouched; a log line is emitted only when the fetch throws —
a non-2xx response leaves the whole state unchanged, log included. -/
theorem loadChatHistory_failure_frame (st : ChatState) (code : Nat) :
    loadChatHistory st (.failure code) = st
    ∧ loadChatHistory st .networkError =
        { st with errorLog := st.errorLog ++ ["Failed to load chat history:"] } :=
  ⟨rfl, rfl⟩

/-- Counterexample to C8 as stated: a history load answered with status 500
leaves the state — in particular the log — exactly as it was, so the failure
is not logged. -/
theorem loadChatHistory_nonok_not_logged :
    loadChatHistory sampleState (.failure 500) = sampleState
    ∧ sampleState.errorLog = [] :=
  ⟨rfl, rfl⟩

/-- C9 as amended: while a send is in flight the draft input element is
disabled (`disabled={loading}`), as is the send button, and a further submit
is rejected by the loading guard without touching the state. -/
theorem input_disabled_while_loading (st : ChatState) (env : SendEnv)
    (h : st.loading = true) :
    inputDisabled st.loading = true
    ∧ sendButtonDisabled st.loading st.inputMessage = true
    ∧ sendMessage st env = (st, none) :=
  ⟨by rw [h]; rfl, by rw [h]; rfl, send_guard_eq st env (Or.inr h)⟩

/-- Witness for the amended C9: a state with a send in flight. -/
theorem input_disabled_while_loading_witness :
    inputDisabled loadingState.loading = true
    ∧ sendButtonDisabled loadingState.loading loadingState.inputMessage = true
    ∧ sendMessage loadingState envThrown = (loadingState, none) :=
  input_disabled_while_loading loadingState envThrown rfl

/-- Counterexample to C9 as stated: the claim says the draft input remains
editable while a send is in flight, but the rendered input's `disabled` prop
is exactly the loading flag, so with a send in flight the input is
disabled. -/
theorem input_disabled_counterexample : inputDisabled true = true := rfl

/-- C10: for every accepted submit, the POST body carries exactly the
pre-clear draft string, which is also the content of the optimistic user
entry placed at the old end of the timeline — clearing the visible draft does
not alter the payload. -/
theorem sendMessage_request_matches_entry (st : ChatState) (env : SendEnv)
    (hne : isBlank st.inputMessage = false) (hld : st.loading = false) :
    (sendMessage st env).2 = some { message := st.inputMessage }
    ∧ (sendMessage st env).1.messages[st.messages.length]? =
        some (mkUserMessage st.inputMessage env.submitNow)
    ∧ (mkUserMessage st.inputMessage env.submitNow).content = st.inputMessage := by
  have hreq : (sendMessage st env).2 = some { message := st.inputMessage } := by
    rw [send_accept_eq st env hne hld]
  refine ⟨hreq, ?_, rfl⟩
  rcases houtc : env.outcome with data | c | _
  · rw [send_success_eq st env data hne hld houtc]
    exact getElem_append_length _ _ _
  · by_cases hc : c = 401
    · subst hc
      rw [send_unauthorized_eq st env hne hld houtc]
      exact getElem_append_length _ _ _
    · rw [send_error_eq st env hne hld (Or.inr ⟨c, houtc, hc⟩)]
      exact getElem_append_length _ _ _
  · rw [send_error_eq st env hne hld (Or.inl houtc)]
    exact getElem_append_length _ _ _

/-- Witness for C10: draft "hello", 2xx outcome. -/
theorem sendMessage_request_matches_entry_witness :
    (sendMessage sampleState envResolved).2 =
        some { message := sampleState.inputMessage }
    ∧ (sendMessage sampleState envResolved).1.messages[sampleState.messages.length]? =
        some (mkUserMessage sampleState.inputMessage envResolved.submitNow)
    ∧ (mkUserMessage sampleState.inputMessage envResolved.submitNow).content
        = sampleState.inputMessage :=
  sendMessage_request_matches_entry sampleState envResolved (by decide) (by decide)
